import Mathlib

/-!
Verification development for the Dockerless-Online-Judge repository.

The Python sources under `app/` are shallowly embedded as Lean functions.
Interactions with the operating system (systemd results, the `res.log`
file written by the sandbox wrapper, contents of captured output files,
directory listings, the clock) are passed in as explicit observation
values; everything the Python code computes from those observations is
translated directly from the source.
-/

namespace OJ

/-! ## Python string helpers

Mirrors of the Python primitives used by the sources: `str.strip()`
(whitespace removal at both ends) and `file.read(n)` (at most `n`
characters). Strings are modelled through their character lists. -/

def isPySpace (c : Char) : Bool :=
  c = ' ' || c = '\t' || c = '\n' || c = '\r' || c = '\x0b' || c = '\x0c'

def pyStrip (s : String) : String :=
  String.mk (((s.data.dropWhile isPySpace).reverse.dropWhile isPySpace).reverse)

def pyRead (s : String) (n : Nat) : String :=
  String.mk (s.data.take n)

/-- Python str.lower() for the ASCII language tags the sources use. -/
def pyLower (s : String) : String := String.mk (s.data.map Char.toLower)

/-- Python str.endswith(suf). -/
def pyEndsWith (s suf : String) : Bool := suf.data.isSuffixOf s.data

/-- Python s[:-n]: the string without its last n characters. -/
def pyDropRight (s : String) (n : Nat) : String :=
  String.mk (s.data.take (s.data.length - n))

/-! ## Submission statuses (`app/schemas/submission.py`) -/

inductive SubmissionStatus where
  | PENDING
  | RUNNING
  | ACCEPTED
  | WRONG_ANSWER
  | TIME_LIMIT_EXCEEDED
  | MEMORY_LIMIT_EXCEEDED
  | RUNTIME_ERROR
  | COMPILATION_ERROR
  | INTERNAL_ERROR
deriving DecidableEq, Repr

def SubmissionStatus.value : SubmissionStatus → String
  | .PENDING => "PENDING"
  | .RUNNING => "RUNNING"
  | .ACCEPTED => "ACCEPTED"
  | .WRONG_ANSWER => "WRONG_ANSWER"
  | .TIME_LIMIT_EXCEEDED => "TIME_LIMIT_EXCEEDED"
  | .MEMORY_LIMIT_EXCEEDED => "MEMORY_LIMIT_EXCEEDED"
  | .RUNTIME_ERROR => "RUNTIME_ERROR"
  | .COMPILATION_ERROR => "COMPILATION_ERROR"
  | .INTERNAL_ERROR => "INTERNAL_ERROR"

def submissionStatusOfString : String → Option SubmissionStatus
  | "PENDING" => some .PENDING
  | "RUNNING" => some .RUNNING
  | "ACCEPTED" => some .ACCEPTED
  | "WRONG_ANSWER" => some .WRONG_ANSWER
  | "TIME_LIMIT_EXCEEDED" => some .TIME_LIMIT_EXCEEDED
  | "MEMORY_LIMIT_EXCEEDED" => some .MEMORY_LIMIT_EXCEEDED
  | "RUNTIME_ERROR" => some .RUNTIME_ERROR
  | "COMPILATION_ERROR" => some .COMPILATION_ERROR
  | "INTERNAL_ERROR" => some .INTERNAL_ERROR
  | _ => none

structure TestCaseResult where
  test_case_name : String
  status : SubmissionStatus
  stdout : Option String := none
  stderr : Option String := none
  execution_time_ms : Option ℚ := none
  memory_used_kb : Option Int := none
deriving DecidableEq, Repr

/-! ## Problems and test cases (`app/schemas/problem.py`)

The judging code accesses `problem.test_cases`, the ordered list built by
`contest_service._load_problem`; that list is carried here as the
`test_cases` field together with the fields the embedded operations use. -/

structure TestCase where
  name : String
  input_content : Option String := none
  output_content : Option String := none
deriving DecidableEq, Repr

structure Problem where
  id : String
  time_limit_sec : Nat
  memory_limit_mb : Nat
  allowed_languages : List String
  test_cases : List TestCase
  generator_code : Option String := none
  generator_language : String := "python"
  generator_time_limit_sec : Option Nat := none
  generator_memory_limit_mb : Option Int := none
  submission_cooldown_sec : Option Int := none
  generator_cooldown_sec : Option Int := none
deriving DecidableEq, Repr

/-! ## Shared sandbox pieces (`app/sandbox/common.py`) -/

namespace Common

def PYTHON3 : String := "/usr/bin/python3"

def GCC : String := "/usr/bin/gcc"

def GPP : String := "/usr/bin/g++"

structure LangCfg where
  ext : String
  compile : Option (List String)
  run : List String
deriving DecidableEq, Repr

def LANGUAGE_CONFIG : String → Option LangCfg
  | "python" => some
      { ext := ".py"
        compile := none
        run := [PYTHON3, "/workspace/user_code.py"] }
  | "c" => some
      { ext := ".c"
        compile := some [GCC, "/workspace/user_code.c", "-o", "/workspace/user_exec",
          "-O2", "-std=c11", "-lm"]
        run := ["/workspace/user_exec"] }
  | "c++" => some
      { ext := ".cpp"
        compile := some [GPP, "/workspace/user_code.cpp", "-o", "/workspace/user_exec",
          "-O2", "-std=c++17"]
        run := ["/workspace/user_exec"] }
  | _ => none

/-- Wall-clock bound passed to systemd-run as RuntimeMaxSec in
`_make_systemd_bwrap_cmd`: `wall_tlim = int(tlim * 2 + wall_clock_safety_margin)`
with a safety margin of 5 seconds. -/
def wall_tlim (tlim : Nat) : Nat := tlim * 2 + 5

end Common

/-! ## The sandbox engine (`app/sandbox/engine.py`) -/

namespace Engine

/-- Signal number of SIGXCPU on Linux, the CPU-limit kill signal the
execution wrapper surfaces through `res.log`. -/
def SIGXCPU : Int := 24

/-- One recognised line of the `res.log` file written by the wrapper in
`app/sandbox/common.py`; unrecognised lines are skipped by the reader and
are therefore not represented. -/
inductive ResLogLine where
  | exitCode (v : Int)
  | signal (v : Int)
  | cpuS (v : ℚ)
  | memKB (v : Int)
deriving DecidableEq, Repr

/-- Result of `round(x, 2)` used on the CPU time; Python rounds ties to
even while `round` here rounds ties up, which differs only on exact
half-hundredths of an observed value. -/
def round2 (q : ℚ) : ℚ := ((round (q * 100) : ℤ) : ℚ) / 100

structure ResUsage where
  exec_ms : ℚ
  mem_kb : Int
  exit_code : Int
  signal_num : Int
deriving DecidableEq, Repr

/-- The `res.log` reading loop of `run_sandboxed` (engine.py lines 158-167):
defaults `(0.0, 0, -1, 0)`, each matching line overwrites its field, the CPU
seconds are converted to rounded milliseconds. -/
def parseResLog (lines : List ResLogLine) : ResUsage :=
  lines.foldl (fun acc l =>
    match l with
    | .exitCode v => { acc with exit_code := v }
    | .signal v => { acc with signal_num := v }
    | .cpuS v => { acc with exec_ms := round2 (v * 1000) }
    | .memKB v => { acc with mem_kb := v })
    { exec_ms := 0, mem_kb := 0, exit_code := -1, signal_num := 0 }

/-- The compile-phase `res.log` reading loop (engine.py lines 98-105): only
`EXIT_CODE:` lines are consulted, default `-1`. -/
def parseCompileExit (lines : List ResLogLine) : Int :=
  lines.foldl (fun acc l =>
    match l with
    | .exitCode v => v
    | _ => acc) (-1)

structure SandboxResult where
  status : String
  exit_code : Int := -1
  stdout : Option String := none
  stderr : Option String := none
  execution_time_ms : ℚ := 0
  memory_used_kb : Int := 0
  compilation_stderr : Option String := none
deriving DecidableEq, Repr

/-- Observations of one compile sub-phase: the systemd scope result, the
`res.log` contents, the content of `user.stderr` if that file exists, and
whether `/workspace/user_exec` was produced. -/
structure CompileObs where
  systemd_result : String
  res_log : List ResLogLine
  stderr_file : Option String
  executable_produced : Bool
deriving DecidableEq, Repr

/-- Observations of one execution sub-phase: the systemd scope result, the
`res.log` contents, and the contents of `user.stdout` and `user.stderr`
when those files exist. -/
structure ExecObs where
  systemd_result : String
  res_log : List ResLogLine
  stdout_file : Option String
  stderr_file : Option String
deriving DecidableEq, Repr

/-- Status decision of `run_sandboxed` (engine.py lines 169-184): first from
the wrapper-reported signal and exit code, then overridden by the systemd
scope result. -/
def execStatus (signal_num exit_code : Int) (sysd : String) : String :=
  let base :=
    if signal_num ≠ 0 then
      if signal_num = SIGXCPU then "timeout" else "runtime_error"
    else if exit_code = 0 then "success"
    else "runtime_error"
  if sysd = "oom-kill" then "oom-kill"
  else if sysd = "timeout" then "timeout"
  else base

/-- Execution sub-phase of `run_sandboxed` (engine.py lines 123-201): parse
`res.log`, decide the status, clamp the reported time to the limit on
timeout, return the full stdout and the stderr truncated to 4096 characters
and stripped (empty becomes None). -/
def execPhase (time_limit_sec : Nat) (eobs : ExecObs) : SandboxResult :=
  let u := parseResLog eobs.res_log
  let status := execStatus u.signal_num u.exit_code eobs.systemd_result
  let exec_ms := if status = "timeout" then ((time_limit_sec : ℚ) * 1000) else u.exec_ms
  let stderr_content : Option String :=
    match eobs.stderr_file with
    | some c =>
        let s := pyStrip (pyRead c 4096)
        if s = "" then none else some s
    | none => none
  { status := status, exit_code := u.exit_code, stdout := eobs.stdout_file,
    stderr := stderr_content, execution_time_ms := exec_ms,
    memory_used_kb := u.mem_kb, compilation_stderr := none }

/-- Compile-failure return of `run_sandboxed` (engine.py lines 106-115):
read `user.stderr` (4096 characters, stripped), prepend the timeout or
oom-kill banner, and fall back to "Compilation failed." when empty. -/
def compileFail (cobs : CompileObs) : SandboxResult :=
  let base : Option String :=
    match cobs.stderr_file with
    | some c => some (pyStrip (pyRead c 4096))
    | none => none
  let tagged : Option String :=
    if cobs.systemd_result = "timeout" then
      some ("Compilation Timed Out (Wall Clock).\n" ++ base.getD "")
    else if cobs.systemd_result = "oom-kill" then
      some ("Compilation Memory Limit Exceeded.\n" ++ base.getD "")
    else base
  let final : String :=
    match tagged with
    | some s => if s = "" then "Compilation failed." else s
    | none => "Compilation failed."
  { status := "compilation_error", compilation_stderr := some final }

/-- Engine entry point `run_sandboxed` (engine.py lines 32-206), as a
function of the language, the time limit and the per-phase observations. -/
def run_sandboxed (language : String) (time_limit_sec : Nat)
    (cobs : CompileObs) (eobs : ExecObs) : SandboxResult :=
  match Common.LANGUAGE_CONFIG (pyLower language) with
  | none =>
      { status := "internal_error",
        stderr := some ("Unsupported language: " ++ language) }
  | some cfg =>
    match cfg.compile with
    | some _ =>
        let compile_exit := parseCompileExit cobs.res_log
        if cobs.systemd_result ≠ "success" ∨ compile_exit ≠ 0 then
          compileFail cobs
        else if ¬ cobs.executable_produced then
          { status := "internal_error",
            stderr := some "Compiler succeeded but produced no executable file." }
        else execPhase time_limit_sec eobs
    | none => execPhase time_limit_sec eobs

end Engine

/-! ## The judging executor (`app/sandbox/executor.py`) -/

namespace Executor

def PYTHON3 : String := "/usr/bin/python3"

def GCC : String := "/usr/bin/gcc"

def GPP : String := "/usr/bin/g++"

/-- The language registry of executor.py (lines 30-48); commands use the
`/sandbox` paths of this pipeline. -/
def LANGUAGE_CONFIG : String → Option Common.LangCfg
  | "python" => some
      { ext := ".py"
        compile := none
        run := [PYTHON3, "/sandbox/user_code.py"] }
  | "c" => some
      { ext := ".c"
        compile := some [GCC, "/sandbox/user_code.c", "-o", "/sandbox/user_exec",
          "-O2", "-std=c11", "-lm"]
        run := ["/sandbox/user_exec"] }
  | "c++" => some
      { ext := ".cpp"
        compile := some [GPP, "/sandbox/user_code.cpp", "-o", "/sandbox/user_exec",
          "-O2", "-std=c++17"]
        run := ["/sandbox/user_exec"] }
  | _ => none

/-- Return value of `_systemd_bwrap_run` in executor.py (lines 142-146): the
systemd scope result string, the subprocess exit code, and the peak RSS. -/
structure SysdRunRes where
  systemd : String
  exit : Int
  mem_kb : Int
deriving DecidableEq, Repr

/-- Observations of one `run_code_in_sandbox` call: the compile and execute
`_systemd_bwrap_run` results, the contents of the compile stderr and run
stderr files when they exist, the wall-clock measurement around the run,
and the `diff` exit code when the diff is executed. -/
structure RunObs where
  compile : SysdRunRes
  compile_err_file : Option String
  exec : SysdRunRes
  measured_ms : ℚ
  diff_code : Int
  err_file : Option String
deriving DecidableEq, Repr

/-- Compile-failure branch of `run_code_in_sandbox` (executor.py lines
237-261): read the compiler stderr (2048 characters, stripped), wrap it in
a timeout or memory banner according to the systemd result, and return a
COMPILATION_ERROR result with zero time and the compile-phase memory. -/
def compileErrorResult (tc_name : String) (cres : SysdRunRes)
    (compile_err_file : Option String) : TestCaseResult :=
  let msg0 : String :=
    match compile_err_file with
    | some c => pyStrip (pyRead c 2048)
    | none => "Compilation failed (no error output)."
  let msg : String :=
    if cres.systemd = "timeout" then
      "Compilation Timed Out (" ++ msg0 ++ ")"
    else if cres.systemd = "oom" ∨ cres.systemd = "memory" ∨ cres.systemd = "oom-kill" then
      "Compilation Memory Limit Exceeded (" ++ msg0 ++ ")"
    else msg0
  { test_case_name := tc_name, status := .COMPILATION_ERROR, stdout := none,
    stderr := some msg, execution_time_ms := some 0, memory_used_kb := some cres.mem_kb }

/-- Status mapping of `run_code_in_sandbox` (executor.py lines 303-317),
together with the stderr message set on the catch-all branch. -/
def mapExecStatus (sysd : String) (ret : Int) (diffc : Int) :
    SubmissionStatus × Option String :=
  if sysd = "timeout" then (.TIME_LIMIT_EXCEEDED, none)
  else if sysd = "oom" ∨ sysd = "memory" ∨ sysd = "oom-kill" then
    (.MEMORY_LIMIT_EXCEEDED, none)
  else if sysd = "success" then
    if ret ≠ 0 then (.RUNTIME_ERROR, none)
    else if diffc = 0 then (.ACCEPTED, none) else (.WRONG_ANSWER, none)
  else if sysd = "failed" ∧ ret ≠ 0 then (.RUNTIME_ERROR, none)
  else (.INTERNAL_ERROR,
    some ("Execution failed (systemd: " ++ sysd ++ ", exit: " ++ toString ret ++ ")"))

/-- Stderr collection of `run_code_in_sandbox` (executor.py lines 319-328):
when the status is not ACCEPTED and the stderr file exists, its first 2048
characters are stripped and appended to any prior message. -/
def collectStderr (status : SubmissionStatus) (msg0 : Option String)
    (err_file : Option String) : Option String :=
  if status = .ACCEPTED then msg0
  else
    match err_file with
    | some c =>
        let sc := pyStrip (pyRead c 2048)
        match msg0 with
        | some m => if m = "" then some sc else some (pyStrip (m ++ "\n" ++ sc))
        | none => some sc
    | none => msg0

/-- Judging executor `run_code_in_sandbox` (executor.py lines 165-341) as a
function of the language, the problem limits, the test case and the
observations of its sandbox runs. Its stdout field is always None
(executor.py line 337). -/
def run_code_in_sandbox (language : String) (problem : Problem) (tc : TestCase)
    (obs : RunObs) : TestCaseResult :=
  match LANGUAGE_CONFIG (pyLower language) with
  | none =>
      { test_case_name := tc.name, status := .INTERNAL_ERROR,
        stderr := some ("Unsupported language: " ++ language) }
  | some cfg =>
    let runPhase : TestCaseResult :=
      let eres := obs.exec
      let diffc : Int :=
        if eres.systemd = "success" ∧ eres.exit = 0 then obs.diff_code else -1
      let sm := mapExecStatus eres.systemd eres.exit diffc
      let stderr_msg := collectStderr sm.1 sm.2 obs.err_file
      let exec_ms : ℚ :=
        if sm.1 = .TIME_LIMIT_EXCEEDED then ((problem.time_limit_sec : ℚ) * 1000)
        else obs.measured_ms
      { test_case_name := tc.name, status := sm.1, stdout := none,
        stderr := stderr_msg, execution_time_ms := some exec_ms,
        memory_used_kb := some eres.mem_kb }
    match cfg.compile with
    | some _ =>
        if obs.compile.systemd ≠ "success" ∨ obs.compile.exit ≠ 0 then
          compileErrorResult tc.name obs.compile obs.compile_err_file
        else runPhase
    | none => runPhase

/-- Overall-verdict update of the worker loop (executor.py lines 489-490):
the first non-accepted per-test status wins and is never overwritten. -/
def stepOverall (overall : SubmissionStatus) (s : SubmissionStatus) : SubmissionStatus :=
  if s ≠ .ACCEPTED ∧ overall = .ACCEPTED then s else overall

/-- Test-case loop of `SubmissionProcessingQueue._process_submission`
(executor.py lines 467-492): every test case is run, its result appended,
and the overall status updated; there is no break on failure. -/
def processTestCases (language : String) (problem : Problem)
    (obs : TestCase → RunObs) : SubmissionStatus × List TestCaseResult :=
  problem.test_cases.foldl
    (fun acc tc =>
      let res := run_code_in_sandbox language problem tc (obs tc)
      (stepOverall acc.1 res.status, acc.2 ++ [res]))
    (.ACCEPTED, [])

/-- All members of the SubmissionStatus enumeration, in declaration order. -/
def submissionStatusList : List SubmissionStatus :=
  [.PENDING, .RUNNING, .ACCEPTED, .WRONG_ANSWER, .TIME_LIMIT_EXCEEDED,
   .MEMORY_LIMIT_EXCEEDED, .RUNTIME_ERROR, .COMPILATION_ERROR, .INTERNAL_ERROR]

/-- The terminal status strings of `_process_submission` (executor.py line
446): every status value except PENDING and RUNNING. -/
def terminal_statuses : List String :=
  (submissionStatusList.filter
    (fun s => decide (¬ (s = .PENDING ∨ s = .RUNNING)))).map SubmissionStatus.value

/-- A stored submission row as the worker sees it; the `results` field
carries the per-test list that `update_submission_results` JSON-encodes
into the `results_json` column. -/
structure StoredSubmission where
  id : String
  problem_id : String
  contest_id : String
  language : String
  code : String
  status : String
  results : List TestCaseResult
deriving DecidableEq, Repr

/-- Net database effect of `_process_submission` (executor.py lines
434-510): a missing row is dropped, a row with terminal status is dropped
unchanged, otherwise the row briefly becomes RUNNING and then receives the
aggregated verdict and results (or INTERNAL_ERROR when the problem is not
found in the catalogue). -/
def process_submission (catalog : String → String → Option Problem)
    (obs : TestCase → RunObs) (db : Option StoredSubmission) :
    Option StoredSubmission :=
  match db with
  | none => none
  | some sub =>
    if sub.status ∈ terminal_statuses then some sub
    else
      match catalog sub.contest_id sub.problem_id with
      | none => some
          { sub with
            status := SubmissionStatus.INTERNAL_ERROR.value
            results := [{ test_case_name := "Setup", status := .INTERNAL_ERROR,
                          stderr := some "Problem definition not found" }] }
      | some problem =>
        let r := processTestCases sub.language problem obs
        some { sub with status := r.1.value, results := r.2 }

end Executor

/-! ## Problem loading (`app/services/contest_service.py`) -/

namespace ContestService

/-- Test-case collection of `_load_problem` (contest_service.py lines
92-114): iterate the directory listing in the order the filesystem returns
it, keep entries ending in `.in`, use the name without that extension, read
the input (a failed read skips the case, mirroring the except branch) and
the matching `.out` file when it exists. No sorting is applied. -/
def loadTestCases (listing : List String)
    (readIn : String → Option String) (readOut : String → Option String) :
    List TestCase :=
  listing.filterMap (fun item =>
    if pyEndsWith item ".in" then
      let name := pyDropRight item 3
      match readIn name with
      | some inp => some { name := name, input_content := some inp,
                           output_content := readOut name }
      | none => none
    else none)

end ContestService

/-! ## Submission intake (`app/services/submission_service.py`) -/

namespace SubmissionService

inductive SubmitError where
  | problemNotFound
  | languageNotAllowed (language : String)
  | rateLimited (remaining_wait : ℚ)
deriving DecidableEq, Repr

structure IntakeUser where
  last_submission_at : Option ℚ
deriving DecidableEq, Repr

structure PendingSubmission where
  problem_id : String
  contest_id : String
  language : String
  code : String
  status : String
deriving DecidableEq, Repr

structure IntakeState where
  user : IntakeUser
  submissions : List PendingSubmission
deriving DecidableEq, Repr

def DEFAULT_SUBMISSION_COOLDOWN_SEC : Int := 10

/-- Intake path `create_submission` (submission_service.py lines 22-107):
problem lookup, allowed-language check, cooldown check against
`last_submission_at` (problem override, else the default of 10 seconds),
then insertion of a PENDING row and update of `last_submission_at` to
`now`. Timestamps are UTC seconds; a rejection returns the state
untouched. -/
def create_submission (problem : Option Problem)
    (contest_id problem_id language code : String) (now : ℚ)
    (st : IntakeState) : IntakeState × Except SubmitError PendingSubmission :=
  match problem with
  | none => (st, .error .problemNotFound)
  | some p =>
    if language ∉ p.allowed_languages then
      (st, .error (.languageNotAllowed language))
    else
      let cooldown_sec : Int :=
        p.submission_cooldown_sec.getD DEFAULT_SUBMISSION_COOLDOWN_SEC
      let accept : IntakeState × Except SubmitError PendingSubmission :=
        let sub : PendingSubmission :=
          { problem_id := problem_id, contest_id := contest_id,
            language := language, code := code, status := "PENDING" }
        ({ user := { last_submission_at := some now },
           submissions := st.submissions ++ [sub] }, .ok sub)
      match st.user.last_submission_at with
      | some last =>
          if now - last < (cooldown_sec : ℚ) then
            (st, .error (.rateLimited (last + (cooldown_sec : ℚ) - now)))
          else accept
      | none => accept

end SubmissionService

/-! ## Generator runner (`app/services/generator_service.py`) -/

namespace GeneratorService

structure GeneratorResult where
  status : String
  input : Option String := none
  output : Option String := none
  error : Option String := none
deriving DecidableEq, Repr

/-- Modelled from the spec: `run_generator_in_sandbox` is imported by
`app/services/generator_service.py` (line 10) from `app.sandbox.executor`,
but no definition of it exists in the provided sources. Spec section 4.5
describes it: the generator runs in the sandbox under the generator limits
with no stdin; by convention its stdout is the fresh test input and its
stderr the expected output, and the two streams are returned separately; a
non-zero exit, a timeout, or an OOM yields a structured error describing
the cause instead of an exception. The sandbox run itself is the engine
embedded above. -/
def run_generator_in_sandbox (problem_for_generator : Problem)
    (generator_language : String) (cobs : Engine.CompileObs)
    (eobs : Engine.ExecObs) : GeneratorResult :=
  let r := Engine.run_sandboxed generator_language
      (problem_for_generator.generator_time_limit_sec.getD 10) cobs eobs
  if r.status = "timeout" then
    { status := r.status, error := some "Generator timed out." }
  else if r.status = "oom-kill" then
    { status := r.status, error := some "Generator exceeded the memory limit." }
  else if r.status = "success" ∧ r.exit_code = 0 then
    { status := r.status, input := r.stdout, output := r.stderr }
  else
    { status := r.status,
      error := some ("Generator failed with status " ++ r.status ++ ".") }

inductive GenError where
  | problemNotFound
  | generatorNotAvailable
  | rateLimited (remaining_wait : ℚ)
deriving DecidableEq, Repr

def DEFAULT_GENERATOR_COOLDOWN_SEC : Int := 10

/-- Service entry `generate_sample_testcase` (generator_service.py lines
16-94): problem and generator existence checks, cooldown check against
`last_generation_at`, update of that timestamp to `now`, then the generator
run with the hard-coded language "python" (line 65). The returned pair
carries the updated `last_generation_at` and the runner result. -/
def generate_sample_testcase (problem : Option Problem) (now : ℚ)
    (last_generation_at : Option ℚ) (cobs : Engine.CompileObs)
    (eobs : Engine.ExecObs) : Except GenError (Option ℚ × GeneratorResult) :=
  match problem with
  | none => .error .problemNotFound
  | some p =>
    match p.generator_code with
    | none => .error .generatorNotAvailable
    | some _ =>
      let cooldown_sec : Int :=
        p.generator_cooldown_sec.getD DEFAULT_GENERATOR_COOLDOWN_SEC
      match last_generation_at with
      | some last =>
          if now - last < (cooldown_sec : ℚ) then
            .error (.rateLimited (last + (cooldown_sec : ℚ) - now))
          else .ok (some now, run_generator_in_sandbox p "python" cobs eobs)
      | none => .ok (some now, run_generator_in_sandbox p "python" cobs eobs)

end GeneratorService

/-! ## Reading a stored submission back (`submission_service.get_submission_by_id`) -/

namespace SubmissionView

/-- A Python value as produced by `json.loads`. -/
inductive PyValue where
  | pstr (s : String)
  | pint (n : Int)
  | pfloat (q : ℚ)
  | pbool (b : Bool)
  | pnone
  | plist (items : List PyValue)
  | pdict (fields : List (String × PyValue))

/-- The persisted `results_json` column as seen through `json.loads`:
absent or empty (falsy), undecodable, or a decoded Python value. -/
inductive StoredResultsJson where
  | empty
  | malformed
  | value (v : PyValue)

structure SubmissionRow where
  id : String
  problem_id : String
  contest_id : String
  language : String
  code : String
  submitter_id : Int
  status : String
  results_json : StoredResultsJson

structure SubmissionSchema where
  id : String
  problem_id : String
  contest_id : String
  language : String
  code : String
  submitter_id : Int
  status : SubmissionStatus
  results : List TestCaseResult
deriving DecidableEq, Repr

def pyGet (fields : List (String × PyValue)) (key : String) : Option PyValue :=
  (fields.find? (fun kv => kv.1 = key)).map (fun kv => kv.2)

def parseOptStrField : Option PyValue → Option (Option String)
  | none => some none
  | some .pnone => some none
  | some (.pstr s) => some (some s)
  | some _ => none

def parseOptNumField : Option PyValue → Option (Option ℚ)
  | none => some none
  | some .pnone => some none
  | some (.pint n) => some (some (n : ℚ))
  | some (.pfloat q) => some (some q)
  | some _ => none

def parseOptIntField : Option PyValue → Option (Option Int)
  | none => some none
  | some .pnone => some none
  | some (.pint n) => some (some n)
  | some _ => none

/-- Validation performed by `TestCaseResult(**res_dict)`: the two required
fields must be present and well-typed (with `status` a valid enumeration
value), the optional fields default to None and must be well-typed when
present. -/
def parseTestCaseResultDict (fields : List (String × PyValue)) :
    Option TestCaseResult := do
  let nameV ← pyGet fields "test_case_name"
  let name ← match nameV with | .pstr s => some s | _ => none
  let statusV ← pyGet fields "status"
  let statusS ← match statusV with | .pstr s => some s | _ => none
  let status ← submissionStatusOfString statusS
  let stdout ← parseOptStrField (pyGet fields "stdout")
  let stderr ← parseOptStrField (pyGet fields "stderr")
  let ems ← parseOptNumField (pyGet fields "execution_time_ms")
  let mem ← parseOptIntField (pyGet fields "memory_used_kb")
  pure { test_case_name := name, status := status, stdout := stdout,
         stderr := stderr, execution_time_ms := ems, memory_used_kb := mem }

/-- Per-item handling of the results list (submission_service.py lines
132-151): a dict is parsed, a failed parse or a non-dict item becomes a
placeholder INTERNAL_ERROR entry. -/
def itemToResult : PyValue → TestCaseResult
  | .pdict fields =>
      match parseTestCaseResultDict fields with
      | some r => r
      | none =>
          { test_case_name := "Result Parsing Error", status := .INTERNAL_ERROR,
            stderr := some "Failed to parse result item." }
  | _ =>
      { test_case_name := "Result Parsing Error", status := .INTERNAL_ERROR,
        stderr := some "Unexpected item type in results list." }

/-- Results decoding of `get_submission_by_id` (submission_service.py lines
126-167): empty column gives no results, a JSON decode failure or a
non-list value gives a single placeholder INTERNAL_ERROR entry, a list is
handled item by item. -/
def parsedResultsOf : StoredResultsJson → List TestCaseResult
  | .empty => []
  | .malformed =>
      [{ test_case_name := "Result Parsing", status := .INTERNAL_ERROR,
         stderr := some "Failed to parse results JSON." }]
  | .value (.plist items) => items.map itemToResult
  | .value _ =>
      [{ test_case_name := "Result Parsing", status := .INTERNAL_ERROR,
         stderr := some "Invalid result format stored (not a list)." }]

/-- View construction of `get_submission_by_id` (submission_service.py
lines 126-190) for a row that exists and belongs to the requesting user:
total on any stored data, with an invalid status string mapped to
INTERNAL_ERROR (lines 169-174). -/
def get_submission_by_id (row : SubmissionRow) : SubmissionSchema :=
  { id := row.id, problem_id := row.problem_id, contest_id := row.contest_id,
    language := row.language, code := row.code, submitter_id := row.submitter_id,
    status := (submissionStatusOfString row.status).getD .INTERNAL_ERROR,
    results := parsedResultsOf row.results_json }

end SubmissionView

/-! ## Derived notions used in the statements -/

/-- The status of the first non-accepted entry of a status list, ACCEPTED
when there is none; the aggregate the worker loop computes. -/
def firstNonAccepted (statuses : List SubmissionStatus) : SubmissionStatus :=
  match statuses.find? (fun s => decide (s ≠ .ACCEPTED)) with
  | some s => s
  | none => .ACCEPTED

/-- Strict lexicographic comparison on character lists by code point, the
order Python string sorting uses. -/
def lexLtChars : List Char → List Char → Bool
  | _, [] => false
  | [], _ :: _ => true
  | a :: as, b :: bs =>
      if a.toNat < b.toNat then true
      else if b.toNat < a.toNat then false
      else lexLtChars as bs

def pyStrLt (a b : String) : Bool := lexLtChars a.data b.data

def pyStrLe (a b : String) : Bool := ! pyStrLt b a

/-! ## Concrete sample observations used in closed statements -/

def cobs0 : Engine.CompileObs :=
  { systemd_result := "success", res_log := [.exitCode 0], stderr_file := none,
    executable_produced := true }

def eobsOOM : Engine.ExecObs :=
  { systemd_result := "oom-kill", res_log := [.exitCode 137], stdout_file := none,
    stderr_file := none }

def eobsTimeout : Engine.ExecObs :=
  { systemd_result := "timeout", res_log := [], stdout_file := none,
    stderr_file := none }

def eobsErr : Engine.ExecObs :=
  { systemd_result := "success", res_log := [.exitCode 0], stdout_file := none,
    stderr_file := some "err" }

def bigOut : String := String.mk (List.replicate 4097 'a')

def eobsBig : Engine.ExecObs :=
  { systemd_result := "success", res_log := [.exitCode 0], stdout_file := some bigOut,
    stderr_file := none }

def eobsGen : Engine.ExecObs :=
  { systemd_result := "success", res_log := [.exitCode 0, .signal 0],
    stdout_file := some "3 4", stderr_file := some "7" }

def robsWA : Executor.RunObs :=
  { compile := { systemd := "success", exit := 0, mem_kb := 1000 }
    compile_err_file := none
    exec := { systemd := "success", exit := 0, mem_kb := 2000 }
    measured_ms := 10
    diff_code := 1
    err_file := none }

def robsAC : Executor.RunObs :=
  { compile := { systemd := "success", exit := 0, mem_kb := 1000 }
    compile_err_file := none
    exec := { systemd := "success", exit := 0, mem_kb := 2000 }
    measured_ms := 10
    diff_code := 0
    err_file := none }

def tcA : TestCase :=
  { name := "a", input_content := some "1", output_content := some "1" }

def tcB : TestCase :=
  { name := "b", input_content := some "1", output_content := some "1" }

def pTwoTests : Problem :=
  { id := "p0", time_limit_sec := 2, memory_limit_mb := 64,
    allowed_languages := ["python"], test_cases := [tcA, tcB] }

def obsWAfirst : TestCase → Executor.RunObs :=
  fun tc => if tc.name = "a" then robsWA else robsAC

def obsAllAC : TestCase → Executor.RunObs := fun _ => robsAC

def c4listing : List String := ["b.in", "a.in"]

def c4readIn : String → Option String := fun _ => some ""

def c4readOut : String → Option String := fun _ => none

def c4prob : Problem :=
  { id := "p4", time_limit_sec := 2, memory_limit_mb := 64,
    allowed_languages := ["python"],
    test_cases := ContestService.loadTestCases c4listing c4readIn c4readOut }

def subDone : Executor.StoredSubmission :=
  { id := "s1", problem_id := "p0", contest_id := "c0", language := "python",
    code := "print(1)", status := "ACCEPTED", results := [] }

def subPending : Executor.StoredSubmission :=
  { id := "s2", problem_id := "p0", contest_id := "c0", language := "python",
    code := "print(1)", status := "PENDING", results := [] }

def pGen : Problem :=
  { id := "pg", time_limit_sec := 2, memory_limit_mb := 64,
    allowed_languages := ["python"], test_cases := [tcA],
    generator_code := some "print(1)" }

def pCool : Problem :=
  { id := "pc", time_limit_sec := 2, memory_limit_mb := 64,
    allowed_languages := ["python"], test_cases := [tcA] }

def stCool : SubmissionService.IntakeState :=
  { user := { last_submission_at := some 0 }, submissions := [] }

def rowBad : SubmissionView.SubmissionRow :=
  { id := "s3", problem_id := "p0", contest_id := "c0", language := "python",
    code := "print(1)", submitter_id := 1, status := "BOGUS",
    results_json := .malformed }

/-! ## Helper lemmas -/

theorem length_pyRead_le (s : String) (n : Nat) : (pyRead s n).length ≤ n := by
  show (s.data.take n).length ≤ n
  simp [List.length_take]

theorem length_pyStrip_le (s : String) : (pyStrip s).length ≤ s.length := by
  show (((s.data.dropWhile isPySpace).reverse.dropWhile isPySpace).reverse).length
      ≤ s.data.length
  rw [List.length_reverse]
  calc ((s.data.dropWhile isPySpace).reverse.dropWhile isPySpace).length
      ≤ (s.data.dropWhile isPySpace).reverse.length :=
        (List.dropWhile_suffix _).length_le
    _ = (s.data.dropWhile isPySpace).length := List.length_reverse _
    _ ≤ s.data.length := (List.dropWhile_suffix _).length_le

theorem execStatus_mem (a b : Int) (sysd : String) :
    Engine.execStatus a b sysd ∈
      (["success", "timeout", "oom-kill", "runtime_error"] : List String) := by
  simp only [Engine.execStatus]
  split_ifs <;> simp

theorem execPhase_status (t : Nat) (eobs : Engine.ExecObs) :
    (Engine.execPhase t eobs).status =
      Engine.execStatus (Engine.parseResLog eobs.res_log).signal_num
        (Engine.parseResLog eobs.res_log).exit_code eobs.systemd_result := rfl

theorem compileFail_status (cobs : Engine.CompileObs) :
    (Engine.compileFail cobs).status = "compilation_error" := rfl

theorem execPhase_timeout_ms (t : Nat) (eobs : Engine.ExecObs)
    (h : (Engine.execPhase t eobs).status = "timeout") :
    (Engine.execPhase t eobs).execution_time_ms = (t : ℚ) * 1000 := by
  have h' : Engine.execStatus (Engine.parseResLog eobs.res_log).signal_num
      (Engine.parseResLog eobs.res_log).exit_code eobs.systemd_result = "timeout" := h
  show (if Engine.execStatus (Engine.parseResLog eobs.res_log).signal_num
      (Engine.parseResLog eobs.res_log).exit_code eobs.systemd_result = "timeout"
      then ((t : ℚ) * 1000) else (Engine.parseResLog eobs.res_log).exec_ms) = (t : ℚ) * 1000
  rw [if_pos h']

theorem execPhase_stderr_bound (t : Nat) (eobs : Engine.ExecObs) (s : String)
    (h : (Engine.execPhase t eobs).stderr = some s) : s.length ≤ 4096 := by
  have h' : (match eobs.stderr_file with
    | some c =>
        let s := pyStrip (pyRead c 4096)
        if s = "" then none else some s
    | none => (none : Option String)) = some s := h
  rcases hf : eobs.stderr_file with _ | c
  · rw [hf] at h'; exact absurd h' (by simp)
  · rw [hf] at h'
    simp only at h'
    split_ifs at h'
    have hs : pyStrip (pyRead c 4096) = s := by
      exact Option.some.inj h'
    calc s.length = (pyStrip (pyRead c 4096)).length := by rw [hs]
      _ ≤ (pyRead c 4096).length := length_pyStrip_le _
      _ ≤ 4096 := length_pyRead_le _ _

theorem execPhase_stdout (t : Nat) (eobs : Engine.ExecObs) :
    (Engine.execPhase t eobs).stdout = eobs.stdout_file := rfl

/-! ## Claim theorems -/

/-- C3 (counterexample): a run terminated by the memory limit (systemd
scope result oom-kill) returns the status string "oom-kill", which is not
the claimed "oom" and lies outside the claimed six-value set. -/
theorem run_sandboxed_oom_status_counterexample :
    (Engine.run_sandboxed "python" 1 cobs0 eobsOOM).status = "oom-kill" ∧
    (Engine.run_sandboxed "python" 1 cobs0 eobsOOM).status ∉
      (["success", "compilation_error", "timeout", "oom", "runtime_error",
        "internal_error"] : List String) := by
  constructor
  · rfl
  · decide

/-- C3 (amended): every run_sandboxed status is one of success,
compilation_error, timeout, oom-kill, runtime_error, internal_error; a
memory-limit kill yields exactly "oom-kill". -/
theorem run_sandboxed_status_in_six (language : String) (t : Nat)
    (cobs : Engine.CompileObs) (eobs : Engine.ExecObs) :
    (Engine.run_sandboxed language t cobs eobs).status ∈
      (["success", "compilation_error", "timeout", "oom-kill", "runtime_error",
        "internal_error"] : List String) := by
  have hexec : (Engine.execPhase t eobs).status ∈
      (["success", "compilation_error", "timeout", "oom-kill", "runtime_error",
        "internal_error"] : List String) := by
    rw [execPhase_status]
    have := execStatus_mem (Engine.parseResLog eobs.res_log).signal_num
      (Engine.parseResLog eobs.res_log).exit_code eobs.systemd_result
    simp only [List.mem_cons, List.mem_singleton] at this ⊢
    tauto
  unfold Engine.run_sandboxed
  rcases hcfg : Common.LANGUAGE_CONFIG (pyLower language) with _ | cfg
  · simp
  · simp only [hcfg]
    rcases hc : cfg.compile with _ | cmds
    · exact hexec
    · simp only [hc]
      split_ifs
      all_goals first
        | exact hexec
        | simp [compileFail_status]

/-- C5 (counterexample): a timed-out run with the default limit of 5
seconds reports 5000 ms, strictly below the RuntimeMaxSec wall-clock bound
of that call, wall_tlim 5 = 15 seconds = 15000 ms. -/
theorem run_sandboxed_timeout_below_wall_counterexample :
    (Engine.run_sandboxed "python" 5 cobs0 eobsTimeout).status = "timeout" ∧
    ¬ ((Common.wall_tlim 5 : ℚ) * 1000 ≤
        (Engine.run_sandboxed "python" 5 cobs0 eobsTimeout).execution_time_ms) := by
  refine ⟨rfl, ?_⟩
  show ¬ ((Common.wall_tlim 5 : ℚ) * 1000 ≤ ((5 : Nat) : ℚ) * 1000)
  rw [show Common.wall_tlim 5 = 15 from rfl]
  norm_num

/-- C5 (amended): on a timeout, run_sandboxed reports exactly
1000·time_limit_sec milliseconds, which is strictly below the RuntimeMaxSec
wall-clock bound of the call expressed in milliseconds. -/
theorem run_sandboxed_timeout_reported_time (language : String) (t : Nat)
    (cobs : Engine.CompileObs) (eobs : Engine.ExecObs)
    (h : (Engine.run_sandboxed language t cobs eobs).status = "timeout") :
    (Engine.run_sandboxed language t cobs eobs).execution_time_ms = (t : ℚ) * 1000 ∧
    (t : ℚ) * 1000 < (Common.wall_tlim t : ℚ) * 1000 := by
  constructor
  · unfold Engine.run_sandboxed at h ⊢
    rcases hcfg : Common.LANGUAGE_CONFIG (pyLower language) with _ | cfg
    · rw [hcfg] at h
      exact absurd (show ("internal_error" : String) = "timeout" from h) (by decide)
    · simp only [hcfg] at h ⊢
      rcases hc : cfg.compile with _ | cmds
      · simp only [hc] at h ⊢
        exact execPhase_timeout_ms t eobs h
      · simp only [hc] at h ⊢
        split_ifs at h ⊢
        · exact absurd (show ("compilation_error" : String) = "timeout" from h) (by decide)
        · exact execPhase_timeout_ms t eobs h
        · exact absurd (show ("internal_error" : String) = "timeout" from h) (by decide)
  · have ht : (t : ℚ) < (Common.wall_tlim t : ℚ) := by
      unfold Common.wall_tlim
      push_cast
      have : (0 : ℚ) ≤ (t : ℚ) := Nat.cast_nonneg t
      linarith
    have h1000 : (0 : ℚ) < 1000 := by norm_num
    exact mul_lt_mul_of_pos_right ht h1000

theorem run_sandboxed_timeout_reported_time_witness :
    (Engine.run_sandboxed "python" 5 cobs0 eobsTimeout).execution_time_ms =
      ((5 : Nat) : ℚ) * 1000 ∧
    ((5 : Nat) : ℚ) * 1000 < (Common.wall_tlim 5 : ℚ) * 1000 :=
  run_sandboxed_timeout_reported_time "python" 5 cobs0 eobsTimeout (by decide)

/-- C6 (counterexample): a user stdout of 4097 characters is returned in
full by run_sandboxed; the captured stdout is not bounded by 4 KiB. -/
theorem run_sandboxed_stdout_unbounded_counterexample :
    (Engine.run_sandboxed "python" 1 cobs0 eobsBig).stdout = some bigOut ∧
    4096 < bigOut.length := by
  constructor
  · rfl
  · show 4096 < (List.replicate 4097 'a').length
    rw [List.length_replicate]
    norm_num

/-- C6 (amended): for a known language, any stderr returned by
run_sandboxed is at most 4096 characters, while the returned stdout is
either absent or the whole captured stdout file, unbounded. -/
theorem run_sandboxed_output_bounds (language : String) (t : Nat)
    (cobs : Engine.CompileObs) (eobs : Engine.ExecObs) (s : String)
    (hlang : (Common.LANGUAGE_CONFIG (pyLower language)).isSome)
    (h : (Engine.run_sandboxed language t cobs eobs).stderr = some s) :
    s.length ≤ 4096 ∧
    ((Engine.run_sandboxed language t cobs eobs).stdout = none ∨
      (Engine.run_sandboxed language t cobs eobs).stdout = eobs.stdout_file) := by
  unfold Engine.run_sandboxed at h ⊢
  rcases hcfg : Common.LANGUAGE_CONFIG (pyLower language) with _ | cfg
  · rw [hcfg] at hlang
    exact absurd hlang (by decide)
  · simp only [hcfg] at h ⊢
    rcases hc : cfg.compile with _ | cmds
    · simp only [hc] at h ⊢
      exact ⟨execPhase_stderr_bound t eobs s h, Or.inr (execPhase_stdout t eobs)⟩
    · simp only [hc] at h ⊢
      split_ifs at h ⊢
      · exact Option.noConfusion (show (none : Option String) = some s from h)
      · exact ⟨execPhase_stderr_bound t eobs s h, Or.inr (execPhase_stdout t eobs)⟩
      · have hs : s = "Compiler succeeded but produced no executable file." :=
          (Option.some.inj h).symm
        subst hs
        exact ⟨by decide, Or.inl rfl⟩

theorem run_sandboxed_output_bounds_witness :
    ("err" : String).length ≤ 4096 ∧
    ((Engine.run_sandboxed "python" 1 cobs0 eobsErr).stdout = none ∨
      (Engine.run_sandboxed "python" 1 cobs0 eobsErr).stdout = eobsErr.stdout_file) :=
  run_sandboxed_output_bounds "python" 1 cobs0 eobsErr "err" (by decide) (by decide)

/-- C7 (counterexample): a judged test case with verdict WRONG_ANSWER has
stdout = None in its persisted per-test result; the stdout excerpt the
claim promises is never included. -/
theorem run_code_wrong_answer_stdout_counterexample :
    (Executor.run_code_in_sandbox "python" pTwoTests tcA robsWA).status = .WRONG_ANSWER ∧
    (Executor.run_code_in_sandbox "python" pTwoTests tcA robsWA).stdout = none := by
  exact ⟨rfl, rfl⟩

/-- C7 (amended): every per-test result built by run_code_in_sandbox has
its stdout field omitted (None), for WRONG_ANSWER exactly as for every
other status. -/
theorem run_code_in_sandbox_stdout_none (language : String) (problem : Problem)
    (tc : TestCase) (obs : Executor.RunObs) :
    (Executor.run_code_in_sandbox language problem tc obs).stdout = none := by
  unfold Executor.run_code_in_sandbox
  split
  · rfl
  · split
    · split_ifs <;> rfl
    · rfl

/-- Helper: run_code_in_sandbox names its result after the test case in
every branch. -/
theorem run_code_in_sandbox_name (language : String) (problem : Problem)
    (tc : TestCase) (obs : Executor.RunObs) :
    (Executor.run_code_in_sandbox language problem tc obs).test_case_name = tc.name := by
  unfold Executor.run_code_in_sandbox
  split
  · rfl
  · split
    · split_ifs <;> rfl
    · rfl

/-- Helper: the worker fold appends one result per test case and threads
the overall status through stepOverall. -/
theorem processTestCases_go (language : String) (problem : Problem)
    (obs : TestCase → Executor.RunObs) (tcs : List TestCase)
    (st : SubmissionStatus) (rs : List TestCaseResult) :
    (tcs.foldl (fun acc tc =>
        let res := Executor.run_code_in_sandbox language problem tc (obs tc)
        (Executor.stepOverall acc.1 res.status, acc.2 ++ [res])) (st, rs)) =
      (tcs.foldl (fun o tc => Executor.stepOverall o
          (Executor.run_code_in_sandbox language problem tc (obs tc)).status) st,
       rs ++ tcs.map (fun tc => Executor.run_code_in_sandbox language problem tc (obs tc))) := by
  induction tcs generalizing st rs with
  | nil => simp
  | cons tc rest ih =>
      simp only [List.foldl_cons, List.map_cons]
      rw [ih]
      simp [List.append_assoc]

/-- Helper: a non-ACCEPTED overall status is never overwritten. -/
theorem foldl_stepOverall_ne (statuses : List SubmissionStatus)
    (st : SubmissionStatus) (h : st ≠ .ACCEPTED) :
    statuses.foldl Executor.stepOverall st = st := by
  induction statuses with
  | nil => rfl
  | cons s rest ih =>
      simp only [List.foldl_cons]
      rw [show Executor.stepOverall st s = st from by
        simp [Executor.stepOverall, h]]
      exact ih

/-- Helper: folding stepOverall from ACCEPTED computes the first
non-accepted status. -/
theorem foldl_stepOverall_eq_firstNonAccepted (statuses : List SubmissionStatus) :
    statuses.foldl Executor.stepOverall .ACCEPTED = firstNonAccepted statuses := by
  induction statuses with
  | nil => rfl
  | cons s rest ih =>
      by_cases hs : s = .ACCEPTED
      · subst hs
        simp only [List.foldl_cons]
        rw [show Executor.stepOverall .ACCEPTED .ACCEPTED = .ACCEPTED from rfl, ih]
        unfold firstNonAccepted
        rw [List.find?_cons_of_neg]
        simp
      · simp only [List.foldl_cons]
        rw [show Executor.stepOverall .ACCEPTED s = s from by
          simp [Executor.stepOverall, hs]]
        rw [foldl_stepOverall_ne rest s hs]
        unfold firstNonAccepted
        rw [List.find?_cons_of_pos]
        simpa using hs

/-- C1 (counterexample): with two test cases whose first is judged
WRONG_ANSWER, the persisted results list still holds both entries: the
overall verdict is the first failure, but iteration does not stop and
entries after the first non-accepted test are persisted. -/
theorem judging_no_short_circuit_counterexample :
    (Executor.processTestCases "python" pTwoTests obsWAfirst).1 = .WRONG_ANSWER ∧
    (Executor.processTestCases "python" pTwoTests obsWAfirst).2.map
        (fun r => r.status) = [.WRONG_ANSWER, .ACCEPTED] ∧
    (Executor.processTestCases "python" pTwoTests obsWAfirst).2.length = 2 := by
  refine ⟨rfl, rfl, rfl⟩

/-- C1 (amended): the worker persists one result per test case (running
them all, no short-circuit), and the overall verdict equals the status of
the first non-accepted per-test result, ACCEPTED when there is none. -/
theorem processTestCases_results_and_verdict (language : String)
    (problem : Problem) (obs : TestCase → Executor.RunObs) :
    (Executor.processTestCases language problem obs).2 =
      problem.test_cases.map
        (fun tc => Executor.run_code_in_sandbox language problem tc (obs tc)) ∧
    (Executor.processTestCases language problem obs).1 =
      firstNonAccepted ((Executor.processTestCases language problem obs).2.map
        (fun r => r.status)) := by
  have hgo := processTestCases_go language problem obs problem.test_cases .ACCEPTED []
  constructor
  · show (Executor.processTestCases language problem obs).2 = _
    unfold Executor.processTestCases
    rw [hgo]
    simp
  · show (Executor.processTestCases language problem obs).1 = _
    unfold Executor.processTestCases
    rw [hgo]
    dsimp only
    simp only [List.nil_append, List.map_map]
    rw [← List.foldl_map (fun tc =>
        (Executor.run_code_in_sandbox language problem tc (obs tc)).status)
      Executor.stepOverall]
    rw [foldl_stepOverall_eq_firstNonAccepted]
    rfl

/-- C4 (counterexample): with directory listing ["b.in", "a.in"] the loader
keeps the listing order, so the submission is judged as ["b", "a"]; "a"
sorts strictly before "b", hence the persisted results are not in
lexicographic order of test-case names and the i-th result does not match
the i-th lexicographically sorted name. -/
theorem judged_order_not_lex_counterexample :
    (Executor.processTestCases "python" c4prob obsAllAC).2.map
        (fun r => r.test_case_name) = ["b", "a"] ∧
    pyStrLt "a" "b" = true ∧
    pyStrLe "b" "a" = false := by
  exact ⟨rfl, rfl, rfl⟩

/-- C4 (amended): the judged order is the directory-listing order: the
persisted per-test results correspond 1:1, in order, to the `.in` entries
of the listing as returned by the filesystem, with no sorting applied. -/
theorem judged_in_listing_order (language : String) (listing : List String)
    (readIn readOut : String → Option String) (problem : Problem)
    (obs : TestCase → Executor.RunObs)
    (h : problem.test_cases = ContestService.loadTestCases listing readIn readOut) :
    (Executor.processTestCases language problem obs).2.map (fun r => r.test_case_name) =
      (ContestService.loadTestCases listing readIn readOut).map (fun tc => tc.name) := by
  have hgo := processTestCases_go language problem obs problem.test_cases .ACCEPTED []
  unfold Executor.processTestCases
  rw [hgo]
  dsimp only
  rw [List.nil_append, List.map_map, h]
  apply List.map_congr_left
  intro tc _
  exact run_code_in_sandbox_name language problem tc (obs tc)

theorem judged_in_listing_order_witness :
    (Executor.processTestCases "python" c4prob obsAllAC).2.map
        (fun r => r.test_case_name) =
      (ContestService.loadTestCases c4listing c4readIn c4readOut).map
        (fun tc => tc.name) :=
  judged_in_listing_order "python" c4listing c4readIn c4readOut c4prob obsAllAC rfl

/-- Helper: the per-test status mapping never yields PENDING or RUNNING. -/
theorem mapExecStatus_not_pr (sysd : String) (ret diffc : Int) :
    (Executor.mapExecStatus sysd ret diffc).1 ≠ .PENDING ∧
    (Executor.mapExecStatus sysd ret diffc).1 ≠ .RUNNING := by
  unfold Executor.mapExecStatus
  split_ifs <;> simp

/-- Helper: a per-test result status is never PENDING or RUNNING. -/
theorem run_code_in_sandbox_status_not_pr (language : String) (problem : Problem)
    (tc : TestCase) (obs : Executor.RunObs) :
    (Executor.run_code_in_sandbox language problem tc obs).status ≠ .PENDING ∧
    (Executor.run_code_in_sandbox language problem tc obs).status ≠ .RUNNING := by
  unfold Executor.run_code_in_sandbox
  split
  · simp
  · split
    · split_ifs
      · simp [Executor.compileErrorResult]
      · exact mapExecStatus_not_pr _ _ _
    · exact mapExecStatus_not_pr _ _ _

theorem stepOverall_cases (o s : SubmissionStatus) :
    Executor.stepOverall o s = s ∨ Executor.stepOverall o s = o := by
  unfold Executor.stepOverall
  split_ifs <;> simp

theorem foldl_stepOverall_not_pr (l : List SubmissionStatus) (st : SubmissionStatus)
    (hst : st ≠ .PENDING ∧ st ≠ .RUNNING)
    (hl : ∀ s ∈ l, s ≠ .PENDING ∧ s ≠ .RUNNING) :
    l.foldl Executor.stepOverall st ≠ .PENDING ∧
    l.foldl Executor.stepOverall st ≠ .RUNNING := by
  induction l generalizing st with
  | nil => exact hst
  | cons s rest ih =>
      simp only [List.foldl_cons]
      apply ih
      · rcases stepOverall_cases st s with h | h <;> rw [h]
        · exact hl s (by simp)
        · exact hst
      · intro x hx
        exact hl x (by simp [hx])

/-- Helper: the aggregated verdict is never PENDING or RUNNING. -/
theorem processTestCases_overall_not_pr (language : String) (problem : Problem)
    (obs : TestCase → Executor.RunObs) :
    (Executor.processTestCases language problem obs).1 ≠ .PENDING ∧
    (Executor.processTestCases language problem obs).1 ≠ .RUNNING := by
  have hgo := processTestCases_go language problem obs problem.test_cases .ACCEPTED []
  unfold Executor.processTestCases
  rw [hgo]
  dsimp only
  rw [← List.foldl_map (fun tc =>
      (Executor.run_code_in_sandbox language problem tc (obs tc)).status)
    Executor.stepOverall]
  apply foldl_stepOverall_not_pr
  · exact ⟨by decide, by decide⟩
  · intro x hx
    rw [List.mem_map] at hx
    obtain ⟨tc, _, rfl⟩ := hx
    exact run_code_in_sandbox_status_not_pr language problem tc (obs tc)

/-- Helper: the status value string of any status other than PENDING and
RUNNING is in the terminal set of the worker. -/
theorem value_mem_terminal (s : SubmissionStatus)
    (h1 : s ≠ .PENDING) (h2 : s ≠ .RUNNING) :
    s.value ∈ Executor.terminal_statuses := by
  cases s
  · exact absurd rfl h1
  · exact absurd rfl h2
  all_goals decide

/-- Helper: unfolding of the worker transition on an existing row. -/
theorem process_submission_some (catalog : String → String → Option Problem)
    (obs : TestCase → Executor.RunObs) (s : Executor.StoredSubmission) :
    Executor.process_submission catalog obs (some s) =
      if s.status ∈ Executor.terminal_statuses then some s
      else
        match catalog s.contest_id s.problem_id with
        | none => some
            { s with
              status := SubmissionStatus.INTERNAL_ERROR.value
              results := [{ test_case_name := "Setup", status := .INTERNAL_ERROR,
                            stderr := some "Problem definition not found" }] }
        | some problem => some
            { s with
              status := (Executor.processTestCases s.language problem obs).1.value
              results := (Executor.processTestCases s.language problem obs).2 } := rfl

/-- Helper: a row whose stored status is terminal is dropped unchanged. -/
theorem process_submission_drop (catalog : String → String → Option Problem)
    (obs : TestCase → Executor.RunObs) (s : Executor.StoredSubmission)
    (h : s.status ∈ Executor.terminal_statuses) :
    Executor.process_submission catalog obs (some s) = some s := by
  rw [process_submission_some, if_pos h]

/-- C9: a submission whose stored status is terminal (neither PENDING nor
RUNNING) is dropped by the worker with the row unchanged, and the worker
transition is idempotent: processing the result of processing any row is a
no-op, so a second enqueue of the same id performs no second terminal
transition. -/
theorem process_submission_terminal_drop_idempotent
    (catalog : String → String → Option Problem) (obs : TestCase → Executor.RunObs)
    (sub : Executor.StoredSubmission)
    (hterm : sub.status ∈ Executor.terminal_statuses) :
    Executor.process_submission catalog obs (some sub) = some sub ∧
    ∀ db, Executor.process_submission catalog obs
        (Executor.process_submission catalog obs db) =
      Executor.process_submission catalog obs db := by
  constructor
  · exact process_submission_drop catalog obs sub hterm
  · intro db
    rcases db with _ | s
    · rfl
    · by_cases ht : s.status ∈ Executor.terminal_statuses
      · rw [process_submission_drop catalog obs s ht,
            process_submission_drop catalog obs s ht]
      · rw [process_submission_some catalog obs s, if_neg ht]
        rcases hcat : catalog s.contest_id s.problem_id with _ | problem
        · show Executor.process_submission catalog obs
              (some { s with
                status := SubmissionStatus.INTERNAL_ERROR.value
                results := [{ test_case_name := "Setup", status := .INTERNAL_ERROR,
                              stderr := some "Problem definition not found" }] }) = _
          exact process_submission_drop catalog obs _
            (show SubmissionStatus.INTERNAL_ERROR.value ∈ Executor.terminal_statuses
              by decide)
        · show Executor.process_submission catalog obs
              (some { s with
                status := (Executor.processTestCases s.language problem obs).1.value
                results := (Executor.processTestCases s.language problem obs).2 }) = _
          exact process_submission_drop catalog obs _
            (value_mem_terminal _
              (processTestCases_overall_not_pr s.language problem obs).1
              (processTestCases_overall_not_pr s.language problem obs).2)

theorem process_submission_terminal_drop_idempotent_witness :
    Executor.process_submission (fun _ _ => none) (fun _ => robsAC) (some subDone) =
      some subDone ∧
    Executor.process_submission (fun _ _ => none) (fun _ => robsAC)
        (Executor.process_submission (fun _ _ => none) (fun _ => robsAC)
          (some subPending)) =
      Executor.process_submission (fun _ _ => none) (fun _ => robsAC)
        (some subPending) :=
  ⟨(process_submission_terminal_drop_idempotent (fun _ _ => none) (fun _ => robsAC)
      subDone (by decide)).1,
   (process_submission_terminal_drop_idempotent (fun _ _ => none) (fun _ => robsAC)
      subDone (by decide)).2 (some subPending)⟩

/-- C2: for a problem that has a generator and a user whose cooldown does
not apply, generate_sample_testcase returns the generator runner result as
a value; the runner returns the generator stdout (the fresh input) and its
stderr (the expected output) as two separate fields on a clean exit, and a
timeout, memory kill, non-zero exit or any other failure yields a
structured error field rather than an unhandled exception. The runner
itself is modelled from the spec because its definition is absent from
the sources. -/
theorem generate_sample_invokes_runner (p : Problem) (g : String) (now : ℚ)
    (cobs : Engine.CompileObs) (eobs : Engine.ExecObs)
    (hg : p.generator_code = some g) :
    GeneratorService.generate_sample_testcase (some p) now none cobs eobs =
      .ok (some now, GeneratorService.run_generator_in_sandbox p "python" cobs eobs) ∧
    ((Engine.run_sandboxed "python" (p.generator_time_limit_sec.getD 10) cobs eobs).status
        = "success" ∧
      (Engine.run_sandboxed "python" (p.generator_time_limit_sec.getD 10) cobs eobs).exit_code
        = 0 →
      (GeneratorService.run_generator_in_sandbox p "python" cobs eobs).input =
        (Engine.run_sandboxed "python" (p.generator_time_limit_sec.getD 10) cobs eobs).stdout ∧
      (GeneratorService.run_generator_in_sandbox p "python" cobs eobs).output =
        (Engine.run_sandboxed "python" (p.generator_time_limit_sec.getD 10) cobs eobs).stderr ∧
      (GeneratorService.run_generator_in_sandbox p "python" cobs eobs).error = none) ∧
    (¬ ((Engine.run_sandboxed "python" (p.generator_time_limit_sec.getD 10) cobs eobs).status
          = "success" ∧
        (Engine.run_sandboxed "python" (p.generator_time_limit_sec.getD 10) cobs eobs).exit_code
          = 0) →
      (GeneratorService.run_generator_in_sandbox p "python" cobs eobs).error ≠ none) := by
  refine ⟨?_, ?_, ?_⟩
  · simp [GeneratorService.generate_sample_testcase, hg]
  · rintro ⟨hs, he⟩
    simp [GeneratorService.run_generator_in_sandbox, hs, he]
  · intro hne
    simp only [GeneratorService.run_generator_in_sandbox]
    split_ifs <;> simp_all

theorem generate_sample_invokes_runner_witness :
    GeneratorService.generate_sample_testcase (some pGen) 0 none cobs0 eobsGen =
      .ok (some 0, GeneratorService.run_generator_in_sandbox pGen "python" cobs0 eobsGen) ∧
    ((GeneratorService.run_generator_in_sandbox pGen "python" cobs0 eobsGen).input =
        (Engine.run_sandboxed "python" (pGen.generator_time_limit_sec.getD 10)
          cobs0 eobsGen).stdout ∧
      (GeneratorService.run_generator_in_sandbox pGen "python" cobs0 eobsGen).output =
        (Engine.run_sandboxed "python" (pGen.generator_time_limit_sec.getD 10)
          cobs0 eobsGen).stderr ∧
      (GeneratorService.run_generator_in_sandbox pGen "python" cobs0 eobsGen).error = none) :=
  ⟨(generate_sample_invokes_runner pGen "print(1)" 0 cobs0 eobsGen rfl).1,
   (generate_sample_invokes_runner pGen "print(1)" 0 cobs0 eobsGen rfl).2.1 (by decide)⟩

/-- C8: when a problem exists, the language is allowed and the elapsed time
since last_submission_at is strictly below the applicable cooldown (the
problem override, else the default of 10 seconds), create_submission
returns a rate-limited error carrying the non-negative remaining seconds,
with the state unchanged: no submission row is inserted and
last_submission_at keeps its old value. -/
theorem create_submission_rate_limited (p : Problem)
    (contest_id problem_id language code : String) (now last : ℚ)
    (st : SubmissionService.IntakeState)
    (hlang : language ∈ p.allowed_languages)
    (hlast : st.user.last_submission_at = some last)
    (hcd : now - last < ((p.submission_cooldown_sec.getD
      SubmissionService.DEFAULT_SUBMISSION_COOLDOWN_SEC : Int) : ℚ)) :
    SubmissionService.create_submission (some p) contest_id problem_id language code now st =
      (st, .error (.rateLimited (last + ((p.submission_cooldown_sec.getD
        SubmissionService.DEFAULT_SUBMISSION_COOLDOWN_SEC : Int) : ℚ) - now))) ∧
    0 ≤ last + ((p.submission_cooldown_sec.getD
      SubmissionService.DEFAULT_SUBMISSION_COOLDOWN_SEC : Int) : ℚ) - now := by
  constructor
  · simp only [SubmissionService.create_submission]
    rw [if_neg (not_not_intro hlang)]
    simp only [hlast]
    rw [if_pos hcd]
  · linarith

theorem create_submission_rate_limited_witness :
    SubmissionService.create_submission (some pCool) "c0" "p0" "python" "x" 3 stCool =
      (stCool, .error (.rateLimited (0 + ((pCool.submission_cooldown_sec.getD
        SubmissionService.DEFAULT_SUBMISSION_COOLDOWN_SEC : Int) : ℚ) - 3))) ∧
    0 ≤ 0 + ((pCool.submission_cooldown_sec.getD
      SubmissionService.DEFAULT_SUBMISSION_COOLDOWN_SEC : Int) : ℚ) - 3 :=
  create_submission_rate_limited pCool "c0" "p0" "python" "x" 3 0 stCool
    (by decide) rfl
    (by show (3 : ℚ) - 0 < ((10 : Int) : ℚ); norm_num)

/-- C10: reading back a stored submission that exists and is owned by the
requester is total on any persisted data: an undecodable results_json
yields the single INTERNAL_ERROR placeholder, a decoded non-list value
yields the single INTERNAL_ERROR placeholder, a list is mapped item by
item with every unparseable or non-dict item becoming an INTERNAL_ERROR
placeholder entry, and an invalid stored status string becomes status
INTERNAL_ERROR. -/
theorem get_submission_by_id_robust (row : SubmissionView.SubmissionRow) :
    (row.results_json = .malformed →
      (SubmissionView.get_submission_by_id row).results =
        [{ test_case_name := "Result Parsing", status := .INTERNAL_ERROR,
           stderr := some "Failed to parse results JSON." }]) ∧
    (∀ v, row.results_json = .value v → (∀ items, v ≠ .plist items) →
      (SubmissionView.get_submission_by_id row).results =
        [{ test_case_name := "Result Parsing", status := .INTERNAL_ERROR,
           stderr := some "Invalid result format stored (not a list)." }]) ∧
    (∀ items, row.results_json = .value (.plist items) →
      (SubmissionView.get_submission_by_id row).results =
        items.map SubmissionView.itemToResult) ∧
    (∀ fields, SubmissionView.parseTestCaseResultDict fields = none →
      (SubmissionView.itemToResult (.pdict fields)).status = .INTERNAL_ERROR) ∧
    (∀ v, (∀ fields, v ≠ .pdict fields) →
      (SubmissionView.itemToResult v).status = .INTERNAL_ERROR) ∧
    (submissionStatusOfString row.status = none →
      (SubmissionView.get_submission_by_id row).status = .INTERNAL_ERROR) := by
  refine ⟨?_, ?_, ?_, ?_, ?_, ?_⟩
  · intro h
    show SubmissionView.parsedResultsOf row.results_json = _
    rw [h]
    rfl
  · intro v hv hnl
    show SubmissionView.parsedResultsOf row.results_json = _
    rw [hv]
    cases v with
    | plist items => exact absurd rfl (hnl items)
    | pstr s => rfl
    | pint n => rfl
    | pfloat q => rfl
    | pbool b => rfl
    | pnone => rfl
    | pdict fields => rfl
  · intro items h
    show SubmissionView.parsedResultsOf row.results_json = _
    rw [h]
    rfl
  · intro fields h
    simp only [SubmissionView.itemToResult]
    rw [h]
  · intro v hv
    cases v with
    | pdict fields => exact absurd rfl (hv fields)
    | pstr s => rfl
    | pint n => rfl
    | pfloat q => rfl
    | pbool b => rfl
    | pnone => rfl
    | plist items => rfl
  · intro h
    show (submissionStatusOfString row.status).getD .INTERNAL_ERROR = _
    rw [h]
    rfl

theorem get_submission_by_id_robust_witness :
    (SubmissionView.get_submission_by_id rowBad).results =
      [{ test_case_name := "Result Parsing", status := .INTERNAL_ERROR,
         stderr := some "Failed to parse results JSON." }] ∧
    (SubmissionView.get_submission_by_id rowBad).status = .INTERNAL_ERROR :=
  ⟨(get_submission_by_id_robust rowBad).1 rfl,
   (get_submission_by_id_robust rowBad).2.2.2.2.2 rfl⟩

end OJ
